import Mathlib

/-!
Shallow embedding of `src/display/components/table.rs` (bandwhich's table
component): the text truncator, the bandwidth ranking policy, the breakpoint
tables built by the three factories, and the layout-resolution loop at the
start of `Table::render`.

Rust strings are modelled as `List Char`; byte-level operations (`str::len`,
byte-offset slicing) are defined through each character's UTF-8 byte size, so
that slicing at an offset that is not a character boundary — a panic in Rust —
is modelled as `none`.  Machine integers (`u16`, `usize`) are `Nat` with
wrapping written out explicitly where the source can overflow; a subtraction
that Rust would refuse (usize underflow panicking in debug, or the resulting
out-of-range slice panicking in release) is modelled as `none` via `checkedSub`.
-/

/-- Bandwidth trait (external collaborator): two non-negative byte counters,
as read by `get_total_bytes_uploaded` / `get_total_bytes_downloaded`. -/
structure Bandwidth where
  get_total_bytes_uploaded : Nat
  get_total_bytes_downloaded : Nat
deriving DecidableEq, Repr

/-- The `a_highest` / `b_highest` computation inside `sort_by_bandwidth`
(table.rs lines 27-36): the larger of downloaded and uploaded. -/
def dominant (m : Bandwidth) : Nat :=
  if m.get_total_bytes_downloaded > m.get_total_bytes_uploaded then
    m.get_total_bytes_downloaded
  else
    m.get_total_bytes_uploaded

/-- `sort_by_bandwidth` (table.rs lines 23-40): Rust's `slice::sort_by` is a
stable sort; the comparator `b_highest.cmp(&a_highest)` places `a` before `b`
exactly when `dominant b ≤ dominant a`, i.e. a stable descending sort on
`dominant`.  A stable sort's output is uniquely determined by the comparator
and the input order, so Mathlib's stable `insertionSort` with the same
non-strict relation is an exact model. -/
def sort_by_bandwidth {T : Type} (list : List (T × Bandwidth)) : List (T × Bandwidth) :=
  List.insertionSort (fun a b => dominant b.2 ≤ dominant a.2) list

/-- `ColumnCount` (table.rs lines 42-46). -/
inductive ColumnCount where
  | Two
  | Three
  | Four
deriving DecidableEq, Repr

/-- `ColumnCount::as_u16` (table.rs lines 48-56). -/
def ColumnCount.as_u16 : ColumnCount → Nat
  | ColumnCount.Two => 2
  | ColumnCount.Three => 3
  | ColumnCount.Four => 4

/-- `ColumnData` (table.rs lines 58-61). -/
structure ColumnData where
  column_count : ColumnCount
  column_widths : List Nat
deriving DecidableEq, Repr

/-- `usize`/`u16` subtraction that panics on underflow (debug semantics; in
release the wrapped value feeds a slice bound that is out of range, panicking
as well): `none` models the fault. -/
def checkedSub (a b : Nat) : Option Nat :=
  if b ≤ a then some (a - b) else none

/-- Wrapping (release-mode) subtraction of `u16` values `a - b`, both
assumed `< 65536`. -/
def u16sub (a b : Nat) : Nat :=
  (a + 65536 - b % 65536) % 65536

/-- Total UTF-8 byte length of a string, i.e. Rust's `str::len`. -/
def utf8Len (s : List Char) : Nat :=
  (s.map Char.utf8Size).sum

/-- Take the first `n` BYTES of a string: `none` when `n` overruns the string
or falls inside a character (Rust slicing panics on a non-boundary offset). -/
def byteTake : List Char → Nat → Option (List Char)
  | _, 0 => some []
  | [], _ + 1 => none
  | c :: rest, n + 1 =>
    if Char.utf8Size c ≤ n + 1 then
      (byteTake rest (n + 1 - Char.utf8Size c)).map (fun t => c :: t)
    else
      none

/-- Drop the first `n` BYTES of a string: `none` when `n` overruns the string
or falls inside a character. -/
def byteDrop : List Char → Nat → Option (List Char)
  | s, 0 => some s
  | [], _ + 1 => none
  | c :: rest, n + 1 =>
    if Char.utf8Size c ≤ n + 1 then
      byteDrop rest (n + 1 - Char.utf8Size c)
    else
      none

/-- Rust byte slice `&s[a..b]`: `none` models the panics (start past end,
bounds out of range, or a bound not on a character boundary). -/
def byteSlice (s : List Char) (a b : Nat) : Option (List Char) :=
  if b < a then none
  else (byteDrop s a).bind (fun t => byteTake t (b - a))

/-- The literal `"[..]"` marker inserted by `truncate_middle`. -/
def marker : List Char := ['[', '.', '.', ']']

/-- `truncate_middle` (table.rs lines 70-78).  `max_length : u16` (so
`< 65536` in all uses); `row.len() as u16` is the byte length mod 2^16.
`(max_length as usize / 2) - 2` underflows for `max_length < 4`
(`checkedSub`), and both slices are raw byte slices (`byteSlice`); `none`
models the panic. -/
def truncate_middle (row : List Char) (max_length : Nat) : Option (List Char) :=
  if utf8Len row % 65536 > max_length then
    (checkedSub (max_length / 2) 2).bind fun h =>
      (checkedSub (utf8Len row) (max_length / 2)).bind fun d =>
        (byteSlice row 0 h).bind fun first_slice =>
          (byteSlice row (d + 2) (utf8Len row)).map fun second_slice =>
            first_slice ++ marker ++ second_slice
  else
    some row

/-- Breakpoint table of `create_connections_table` (table.rs lines 100-128),
listed in the ascending key order in which `BTreeMap` iterates. -/
def connections_breakpoints : List (Nat × ColumnData) :=
  [(0, ⟨ColumnCount.Two, [20, 23]⟩),
   (70, ⟨ColumnCount.Three, [30, 12, 23]⟩),
   (100, ⟨ColumnCount.Three, [60, 12, 23]⟩),
   (140, ⟨ColumnCount.Three, [100, 12, 23]⟩)]

/-- Breakpoint table of `create_processes_table` (table.rs lines 151-179). -/
def processes_breakpoints : List (Nat × ColumnData) :=
  [(0, ⟨ColumnCount.Two, [12, 23]⟩),
   (50, ⟨ColumnCount.Three, [12, 12, 23]⟩),
   (100, ⟨ColumnCount.Three, [40, 12, 23]⟩),
   (140, ⟨ColumnCount.Three, [40, 12, 23]⟩)]

/-- Breakpoint table of `create_remote_addresses_table`
(table.rs lines 206-234). -/
def remote_addresses_breakpoints : List (Nat × ColumnData) :=
  [(0, ⟨ColumnCount.Two, [12, 23]⟩),
   (70, ⟨ColumnCount.Three, [30, 12, 23]⟩),
   (100, ⟨ColumnCount.Three, [60, 12, 23]⟩),
   (140, ⟨ColumnCount.Three, [100, 12, 23]⟩)]

/-- The mutable state of the loop at the start of `Table::render`
(table.rs lines 243-245): `column_spacing`, `widths`, `column_count`. -/
structure Layout where
  column_spacing : Nat
  widths : List Nat
  column_count : ColumnCount
deriving DecidableEq, Repr

/-- One iteration of the breakpoint loop in `Table::render`
(table.rs lines 247-259): a breakpoint whose key is strictly below the
terminal width overwrites the whole selection, recomputing the spacing with
`u16` arithmetic; otherwise the state is untouched. -/
def resolveStep (width : Nat) (st : Layout) (bp : Nat × ColumnData) : Layout :=
  if bp.fst < width then
    { column_spacing :=
        if width < u16sub bp.snd.column_widths.sum bp.snd.column_count.as_u16 then 0
        else u16sub width bp.snd.column_widths.sum / bp.snd.column_count.as_u16
      widths := bp.snd.column_widths
      column_count := bp.snd.column_count }
  else
    st

/-- The full layout-resolution loop of `Table::render` (table.rs lines
243-259), folding over the breakpoints in ascending key order from the
defaults `column_spacing = 0`, `widths = []`, `column_count = Three`. -/
def resolve (breakpoints : List (Nat × ColumnData)) (width : Nat) : Layout :=
  breakpoints.foldl (resolveStep width) ⟨0, [], ColumnCount.Three⟩

/-- Header projection in `Table::render` (table.rs lines 261-276):
`column_names[i]` indexing is modelled with `get?`, `none` being the panic
on a missing index. -/
def project_column_names (names : List (List Char)) : ColumnCount → Option (List (List Char))
  | ColumnCount.Two =>
    names[0]?.bind fun n0 =>
      names[2]?.map fun n2 => [n0, n2]
  | ColumnCount.Three =>
    names[0]?.bind fun n0 =>
      names[1]?.bind fun n1 =>
        names[2]?.map fun n2 => [n0, n1, n2]
  | ColumnCount.Four =>
    names[0]?.bind fun n0 =>
      names[1]?.bind fun n1 =>
        names[2]?.bind fun n2 =>
          names[3]?.map fun n3 => [n0, n1, n2, n3]

/-- Row projection in `Table::render` (table.rs lines 278-294): the selected
cells are truncated with `truncate_middle` at the resolved widths; `none`
models an out-of-range index or a truncation fault. -/
def project_row (widths : List Nat) (row : List (List Char)) :
    ColumnCount → Option (List (List Char))
  | ColumnCount.Two =>
    row[0]?.bind fun r0 =>
      widths[0]?.bind fun w0 =>
        (truncate_middle r0 w0).bind fun c0 =>
          row[2]?.bind fun r2 =>
            widths[1]?.bind fun w1 =>
              (truncate_middle r2 w1).map fun c2 => [c0, c2]
  | ColumnCount.Three =>
    row[0]?.bind fun r0 =>
      widths[0]?.bind fun w0 =>
        (truncate_middle r0 w0).bind fun c0 =>
          row[1]?.bind fun r1 =>
            widths[1]?.bind fun w1 =>
              (truncate_middle r1 w1).bind fun c1 =>
                row[2]?.bind fun r2 =>
                  widths[2]?.bind fun w2 =>
                    (truncate_middle r2 w2).map fun c2 => [c0, c1, c2]
  | ColumnCount.Four =>
    row[0]?.bind fun r0 =>
      widths[0]?.bind fun w0 =>
        (truncate_middle r0 w0).bind fun c0 =>
          row[1]?.bind fun r1 =>
            widths[1]?.bind fun w1 =>
              (truncate_middle r1 w1).bind fun c1 =>
                row[2]?.bind fun r2 =>
                  widths[2]?.bind fun w2 =>
                    (truncate_middle r2 w2).bind fun c2 =>
                      row[3]?.bind fun r3 =>
                        widths[3]?.bind fun w3 =>
                          (truncate_middle r3 w3).map fun c3 => [c0, c1, c2, c3]

/-- The two-entry breakpoint set used in the spec's end-to-end layout
scenario: `{0: Two [20,23], 70: Three [30,12,23]}`. -/
def example_breakpoints : List (Nat × ColumnData) :=
  [(0, ⟨ColumnCount.Two, [20, 23]⟩),
   (70, ⟨ColumnCount.Three, [30, 12, 23]⟩)]

/-- A layout whose widths sequence has exactly as many entries as its column
count declares. -/
def layoutWidthsMatch (l : Layout) : Prop :=
  l.widths.length = l.column_count.as_u16

/-! ## Helper lemmas -/

theorem utf8Len_cons (c : Char) (t : List Char) :
    utf8Len (c :: t) = Char.utf8Size c + utf8Len t := by
  simp [utf8Len]

theorem utf8Len_eq_length (s : List Char) (h : ∀ c ∈ s, Char.utf8Size c = 1) :
    utf8Len s = s.length := by
  induction s with
  | nil => rfl
  | cons c t ih =>
    have hc : Char.utf8Size c = 1 := h c (List.mem_cons_self c t)
    have ht : ∀ c' ∈ t, Char.utf8Size c' = 1 :=
      fun c' hc' => h c' (List.mem_cons_of_mem c hc')
    rw [utf8Len_cons, hc, ih ht, List.length_cons]
    omega

theorem byteTake_ascii (s : List Char) (h : ∀ c ∈ s, Char.utf8Size c = 1) :
    ∀ n, n ≤ s.length → byteTake s n = some (s.take n) := by
  induction s with
  | nil =>
    intro n hn
    have hn0 : n = 0 := Nat.le_zero.mp hn
    subst hn0
    rfl
  | cons c t ih =>
    intro n hn
    cases n with
    | zero => rfl
    | succ m =>
      have hc : Char.utf8Size c = 1 := h c (List.mem_cons_self c t)
      have ht : ∀ c' ∈ t, Char.utf8Size c' = 1 :=
        fun c' hc' => h c' (List.mem_cons_of_mem c hc')
      have hm : m ≤ t.length := by
        rw [List.length_cons] at hn
        omega
      simp only [byteTake, hc, Nat.add_sub_cancel, if_pos (by omega : 1 ≤ m + 1)]
      rw [ih ht m hm]
      simp [List.take_cons]

theorem byteDrop_ascii (s : List Char) (h : ∀ c ∈ s, Char.utf8Size c = 1) :
    ∀ n, n ≤ s.length → byteDrop s n = some (s.drop n) := by
  induction s with
  | nil =>
    intro n hn
    have hn0 : n = 0 := Nat.le_zero.mp hn
    subst hn0
    rfl
  | cons c t ih =>
    intro n hn
    cases n with
    | zero => rfl
    | succ m =>
      have hc : Char.utf8Size c = 1 := h c (List.mem_cons_self c t)
      have ht : ∀ c' ∈ t, Char.utf8Size c' = 1 :=
        fun c' hc' => h c' (List.mem_cons_of_mem c hc')
      have hm : m ≤ t.length := by
        rw [List.length_cons] at hn
        omega
      simp only [byteDrop, hc, Nat.add_sub_cancel, if_pos (by omega : 1 ≤ m + 1)]
      rw [ih ht m hm]
      simp [List.drop_succ_cons]

theorem byteSlice_ascii (s : List Char) (h : ∀ c ∈ s, Char.utf8Size c = 1) (a b : Nat)
    (hab : a ≤ b) (hb : b ≤ s.length) :
    byteSlice s a b = some ((s.drop a).take (b - a)) := by
  unfold byteSlice
  rw [if_neg (by omega)]
  rw [byteDrop_ascii s h a (le_trans hab hb)]
  rw [Option.some_bind]
  exact byteTake_ascii (s.drop a)
    (fun c hc => h c (List.drop_subset a s hc)) (b - a)
    (by rw [List.length_drop]; omega)

/-! ## Claims about the text truncator -/

/-- Claim C2 (code_bug evidence): at a width too small for the marker plus
head/tail, `truncate_middle` does NOT clamp to a safe minimum — evaluating the
embedding of the code at the over-long string `"hello"` with width 3 faults
(`(3/2) - 2` underflows in `usize`, a panic in the Rust source), modelled as
`none`. -/
theorem truncate_middle_small_width_fault :
    truncate_middle (String.toList "hello") 3 = none := by decide

/-- Claim C4 (code_bug evidence): on multi-byte text the code slices at raw
byte offsets, not character boundaries — five two-byte characters truncated to
width 7 put the head cut at byte offset 1, inside the first character, a panic
in the Rust source, modelled as `none`. -/
theorem truncate_middle_multibyte_fault :
    truncate_middle (List.replicate 5 'α') 7 = none := by decide

/-- Claim C3 (counterexample): the claim as stated fails — for width 3 the
"otherwise" branch faults instead of producing `head ++ "[..]" ++ tail`, and
for a multi-byte string at width 7 the byte-offset cut likewise faults. -/
theorem truncate_middle_claim_counterexample :
    truncate_middle (String.toList "abcdef") 3 = none
    ∧ truncate_middle (List.replicate 5 'β') 7 = none := by decide

/-- Claim C3 (amended): for a string of single-byte characters whose length
fits in `u16`, and any width `w ≥ 4`: if `len(s) ≤ w` the string is returned
unchanged, and otherwise the result is `head ++ "[..]" ++ tail` with `head`
the first `⌊w/2⌋ - 2` units of `s` and `tail` the last `⌊w/2⌋ - 2` units. -/
theorem truncate_middle_spec (s : List Char) (w : Nat)
    (hascii : ∀ c ∈ s, Char.utf8Size c = 1)
    (hlen : s.length < 65536) (hw : 4 ≤ w) :
    (s.length ≤ w → truncate_middle s w = some s)
    ∧ (w < s.length →
        truncate_middle s w
          = some (s.take (w / 2 - 2) ++ marker ++ s.drop (s.length - (w / 2 - 2)))) := by
  have hul : utf8Len s = s.length := utf8Len_eq_length s hascii
  have hw2 : 2 ≤ w / 2 := by omega
  constructor
  · intro hle
    unfold truncate_middle
    rw [hul, Nat.mod_eq_of_lt hlen, if_neg (by omega)]
  · intro hgt
    have hw2len : w / 2 ≤ s.length := by
      have : w / 2 ≤ w := Nat.div_le_self w 2
      omega
    unfold truncate_middle
    rw [hul, Nat.mod_eq_of_lt hlen, if_pos (by omega)]
    rw [show checkedSub (w / 2) 2 = some (w / 2 - 2) from by
      unfold checkedSub; rw [if_pos hw2]]
    rw [Option.some_bind]
    rw [show checkedSub s.length (w / 2) = some (s.length - w / 2) from by
      unfold checkedSub; rw [if_pos hw2len]]
    rw [Option.some_bind]
    rw [byteSlice_ascii s hascii 0 (w / 2 - 2) (Nat.zero_le _) (by omega)]
    rw [Option.some_bind]
    rw [byteSlice_ascii s hascii (s.length - w / 2 + 2) s.length (by omega) (by omega)]
    rw [Option.map_some']
    have e1 : (s.drop 0).take (w / 2 - 2 - 0) = s.take (w / 2 - 2) := by
      rw [List.drop_zero, Nat.sub_zero]
    have e2 : (s.drop (s.length - w / 2 + 2)).take (s.length - (s.length - w / 2 + 2))
        = s.drop (s.length - (w / 2 - 2)) := by
      have h3 : s.length - w / 2 + 2 = s.length - (w / 2 - 2) := by omega
      rw [h3]
      apply List.take_of_length_le
      rw [List.length_drop]
    rw [e1, e2]

/-- Claim C3 (witness): truncating the 16-character string
`"1234567890abcdef"` to width 10 yields `"123[..]def"`. -/
theorem truncate_middle_spec_witness :
    truncate_middle (String.toList "1234567890abcdef") 10
      = some (String.toList "123[..]def") := by
  rw [(truncate_middle_spec (String.toList "1234567890abcdef") 10
      (by decide) (by decide) (by decide)).2 (by decide)]
  rfl

/-! ## Claims about the ranking policy -/

theorem dominant_eq_max (m : Bandwidth) :
    dominant m = max m.get_total_bytes_uploaded m.get_total_bytes_downloaded := by
  unfold dominant
  rcases Nat.lt_or_ge m.get_total_bytes_uploaded m.get_total_bytes_downloaded with h | h
  · rw [if_pos h, Nat.max_eq_right (Nat.le_of_lt h)]
  · rw [if_neg (Nat.not_lt.mpr h), Nat.max_eq_left h]

/-- Claim C5 (confirmed): after `sort_by_bandwidth`, every adjacent pair
`(a, b)` of the result satisfies
`max(a.uploaded, a.downloaded) ≥ max(b.uploaded, b.downloaded)` — the list is
in descending order of dominant bandwidth. -/
theorem sort_by_bandwidth_adjacent_desc {T : Type} (l : List (T × Bandwidth)) :
    List.Chain'
      (fun a b : T × Bandwidth =>
        max b.2.get_total_bytes_uploaded b.2.get_total_bytes_downloaded
          ≤ max a.2.get_total_bytes_uploaded a.2.get_total_bytes_downloaded)
      (sort_by_bandwidth l) := by
  have hsorted : List.Sorted (fun a b : T × Bandwidth => dominant b.2 ≤ dominant a.2)
      (sort_by_bandwidth l) := by
    haveI : IsTotal (T × Bandwidth) (fun a b => dominant b.2 ≤ dominant a.2) :=
      ⟨fun a b => Nat.le_total (dominant b.2) (dominant a.2)⟩
    haveI : IsTrans (T × Bandwidth) (fun a b => dominant b.2 ≤ dominant a.2) :=
      ⟨fun _ _ _ hab hbc => le_trans hbc hab⟩
    exact List.sorted_insertionSort _ l
  have hconv : List.Pairwise
      (fun a b : T × Bandwidth =>
        max b.2.get_total_bytes_uploaded b.2.get_total_bytes_downloaded
          ≤ max a.2.get_total_bytes_uploaded a.2.get_total_bytes_downloaded)
      (sort_by_bandwidth l) := by
    refine hsorted.imp ?_
    intro a b hab
    rw [← dominant_eq_max, ← dominant_eq_max]
    exact hab
  exact hconv.chain'

/-- Claim C6 (counterexample): the three-entry scenario does NOT rank to the
order the claim states — `(500,500)` has dominant 500 while `(10,900)` has
dominant 900, so `(500,500)` cannot come first. -/
theorem rank_scenario_counterexample :
    sort_by_bandwidth
        [(1, Bandwidth.mk 100 50), (2, Bandwidth.mk 10 900), (3, Bandwidth.mk 500 500)]
      ≠ [(3, Bandwidth.mk 500 500), (2, Bandwidth.mk 10 900), (1, Bandwidth.mk 100 50)] := by
  decide

/-- Claim C6 (amended): the three entries with (uploaded, downloaded) pairs
(100,50), (10,900), (500,500) — dominant values 100, 900, 500 — rank to
[(10,900), (500,500), (100,50)]. -/
theorem rank_scenario :
    sort_by_bandwidth
        [(1, Bandwidth.mk 100 50), (2, Bandwidth.mk 10 900), (3, Bandwidth.mk 500 500)]
      = [(2, Bandwidth.mk 10 900), (3, Bandwidth.mk 500 500), (1, Bandwidth.mk 100 50)] := by
  decide

/-! ## Claims about the layout resolver -/

theorem resolveStep_widthsMatch (width : Nat) (st : Layout) (bp : Nat × ColumnData)
    (hst : layoutWidthsMatch st)
    (hbp : bp.snd.column_widths.length = bp.snd.column_count.as_u16) :
    layoutWidthsMatch (resolveStep width st bp) := by
  unfold resolveStep layoutWidthsMatch
  split
  · exact hbp
  · exact hst

theorem foldl_resolveStep_widthsMatch (width : Nat) (l : List (Nat × ColumnData))
    (st : Layout) (hst : layoutWidthsMatch st)
    (hl : ∀ p ∈ l, p.snd.column_widths.length = p.snd.column_count.as_u16) :
    layoutWidthsMatch (l.foldl (resolveStep width) st) := by
  induction l generalizing st with
  | nil => exact hst
  | cons a t ih =>
    rw [List.foldl_cons]
    exact ih (resolveStep width st a)
      (resolveStep_widthsMatch width st a hst (hl a (List.mem_cons_self a t)))
      (fun p hp => hl p (List.mem_cons_of_mem a hp))

theorem resolve_zero_key_widthsMatch (cd : ColumnData) (t : List (Nat × ColumnData))
    (W : Nat) (h1 : 1 ≤ W)
    (hcd : cd.column_widths.length = cd.column_count.as_u16)
    (ht : ∀ p ∈ t, p.snd.column_widths.length = p.snd.column_count.as_u16) :
    layoutWidthsMatch (resolve ((0, cd) :: t) W) := by
  unfold resolve
  rw [List.foldl_cons]
  apply foldl_resolveStep_widthsMatch W t _ _ ht
  unfold resolveStep
  rw [if_pos (show (0 : Nat) < W from h1)]
  exact hcd

/-- Claim C1 (counterexample): at terminal width 0 no breakpoint key satisfies
`key < width`, so the loop's defaults survive: the widths sequence is empty
while the column count is `Three`, violating `len(widths) = count`. -/
theorem resolve_width_zero_mismatch :
    (resolve connections_breakpoints 0).widths.length
      ≠ (resolve connections_breakpoints 0).column_count.as_u16 := by
  decide

/-- Claim C1 (amended): for every terminal width `1 ≤ W ≤ 65535` and each
factory-built breakpoint table, the layout resolution at the start of `render`
is total and yields a widths sequence whose length equals the active column
count, with a spacing ≥ 0.  (At `W = 0` no breakpoint matches and the default
`Three`-count with an empty widths list is returned instead.) -/
theorem resolve_factory_layout (W : Nat) (h1 : 1 ≤ W) (_h2 : W ≤ 65535) :
    ((resolve connections_breakpoints W).widths.length
        = (resolve connections_breakpoints W).column_count.as_u16
      ∧ 0 ≤ (resolve connections_breakpoints W).column_spacing)
    ∧ ((resolve processes_breakpoints W).widths.length
        = (resolve processes_breakpoints W).column_count.as_u16
      ∧ 0 ≤ (resolve processes_breakpoints W).column_spacing)
    ∧ ((resolve remote_addresses_breakpoints W).widths.length
        = (resolve remote_addresses_breakpoints W).column_count.as_u16
      ∧ 0 ≤ (resolve remote_addresses_breakpoints W).column_spacing) := by
  refine ⟨⟨?_, Nat.zero_le _⟩, ⟨?_, Nat.zero_le _⟩, ⟨?_, Nat.zero_le _⟩⟩
  · exact resolve_zero_key_widthsMatch _ _ W h1 (by decide) (by decide)
  · exact resolve_zero_key_widthsMatch _ _ W h1 (by decide) (by decide)
  · exact resolve_zero_key_widthsMatch _ _ W h1 (by decide) (by decide)

/-- Claim C1 (witness): the amended layout-totality theorem instantiated at
terminal width 80. -/
theorem resolve_factory_layout_witness :
    ((resolve connections_breakpoints 80).widths.length
        = (resolve connections_breakpoints 80).column_count.as_u16
      ∧ 0 ≤ (resolve connections_breakpoints 80).column_spacing)
    ∧ ((resolve processes_breakpoints 80).widths.length
        = (resolve processes_breakpoints 80).column_count.as_u16
      ∧ 0 ≤ (resolve processes_breakpoints 80).column_spacing)
    ∧ ((resolve remote_addresses_breakpoints 80).widths.length
        = (resolve remote_addresses_breakpoints 80).column_count.as_u16
      ∧ 0 ≤ (resolve remote_addresses_breakpoints 80).column_spacing) :=
  resolve_factory_layout 80 (by decide) (by decide)

/-- Claim C7 (counterexample): the remote-addresses factory does NOT register
the same column widths as the connections factory — they differ at
breakpoint key 0. -/
theorem remote_breakpoints_widths_counterexample :
    remote_addresses_breakpoints.map (fun p => p.snd.column_widths)
      ≠ connections_breakpoints.map (fun p => p.snd.column_widths) := by
  decide

/-- Claim C7 (amended): the remote-addresses breakpoint table has the same
keys and column counts as the connections table, and identical entries at
keys 70, 100 and 140; but at key 0 the remote table registers widths
`[12, 23]` while the connections table registers `[20, 23]`. -/
theorem remote_breakpoints_structure :
    remote_addresses_breakpoints.map Prod.fst = connections_breakpoints.map Prod.fst
    ∧ remote_addresses_breakpoints.map (fun p => p.snd.column_count)
        = connections_breakpoints.map (fun p => p.snd.column_count)
    ∧ remote_addresses_breakpoints.tail = connections_breakpoints.tail
    ∧ (remote_addresses_breakpoints.map (fun p => p.snd.column_widths)).head? = some [12, 23]
    ∧ (connections_breakpoints.map (fun p => p.snd.column_widths)).head? = some [20, 23] := by
  decide

/-- Claim C8 (counterexample): with breakpoints
`{0: Two [20,23], 70: Three [30,12,23]}`, terminal width 71 does NOT select
the Two-column layout — `70 < 71` holds, so the Three-column breakpoint is
applied. -/
theorem breakpoint_scenario_counterexample :
    (resolve example_breakpoints 71).column_count ≠ ColumnCount.Two := by
  decide

/-- Claim C8 (amended): widths 69 and 70 select the Two-column layout (the
match requires the key to be strictly less than the terminal width, and 70 is
not < 70), while width 71 already selects the Three-column layout. -/
theorem breakpoint_scenario :
    (resolve example_breakpoints 69).column_count = ColumnCount.Two
    ∧ (resolve example_breakpoints 70).column_count = ColumnCount.Two
    ∧ (resolve example_breakpoints 71).column_count = ColumnCount.Three := by
  decide

/-- Claim C9 (counterexample): two widths below the smallest non-zero
breakpoint key need not resolve identically — at width 0 nothing matches
while width 1 matches the 0-key breakpoint, and widths 45 and 47 produce
different spacings (1 and 2). -/
theorem resolve_below_first_key_counterexample :
    (resolve connections_breakpoints 0).widths ≠ (resolve connections_breakpoints 1).widths
    ∧ resolve connections_breakpoints 45 ≠ resolve connections_breakpoints 47 := by
  decide

theorem resolve_conn_low (W : Nat) (h1 : 1 ≤ W) (h2 : W < 70) :
    (resolve connections_breakpoints W).column_count = ColumnCount.Two
    ∧ (resolve connections_breakpoints W).widths = [20, 23] := by
  simp only [resolve, connections_breakpoints, List.foldl, resolveStep]
  split_ifs <;> first | exact ⟨rfl, rfl⟩ | omega

theorem resolve_proc_low (W : Nat) (h1 : 1 ≤ W) (h2 : W < 50) :
    (resolve processes_breakpoints W).column_count = ColumnCount.Two
    ∧ (resolve processes_breakpoints W).widths = [12, 23] := by
  simp only [resolve, processes_breakpoints, List.foldl, resolveStep]
  split_ifs <;> first | exact ⟨rfl, rfl⟩ | omega

theorem resolve_remote_low (W : Nat) (h1 : 1 ≤ W) (h2 : W < 70) :
    (resolve remote_addresses_breakpoints W).column_count = ColumnCount.Two
    ∧ (resolve remote_addresses_breakpoints W).widths = [12, 23] := by
  simp only [resolve, remote_addresses_breakpoints, List.foldl, resolveStep]
  split_ifs <;> first | exact ⟨rfl, rfl⟩ | omega

/-- Claim C9 (amended): for any two terminal widths `1 ≤ W1 < W2` both below
the smallest non-zero breakpoint key of a factory table, resolution selects
the same column count and the same widths at both; the spacing component,
computed from the terminal width itself, is not in general identical. -/
theorem resolve_step_function_below_first_key (W1 W2 : Nat)
    (h1 : 1 ≤ W1) (h12 : W1 < W2) :
    (W2 < 70 →
      ((resolve connections_breakpoints W1).column_count
          = (resolve connections_breakpoints W2).column_count
        ∧ (resolve connections_breakpoints W1).widths
          = (resolve connections_breakpoints W2).widths)
      ∧ ((resolve remote_addresses_breakpoints W1).column_count
          = (resolve remote_addresses_breakpoints W2).column_count
        ∧ (resolve remote_addresses_breakpoints W1).widths
          = (resolve remote_addresses_breakpoints W2).widths))
    ∧ (W2 < 50 →
      ((resolve processes_breakpoints W1).column_count
          = (resolve processes_breakpoints W2).column_count
        ∧ (resolve processes_breakpoints W1).widths
          = (resolve processes_breakpoints W2).widths)) := by
  constructor
  · intro h70
    obtain ⟨hc1, hw1⟩ := resolve_conn_low W1 h1 (by omega)
    obtain ⟨hc2, hw2⟩ := resolve_conn_low W2 (by omega) h70
    obtain ⟨hr1, hv1⟩ := resolve_remote_low W1 h1 (by omega)
    obtain ⟨hr2, hv2⟩ := resolve_remote_low W2 (by omega) h70
    exact ⟨⟨hc1.trans hc2.symm, hw1.trans hw2.symm⟩, ⟨hr1.trans hr2.symm, hv1.trans hv2.symm⟩⟩
  · intro h50
    obtain ⟨hp1, hq1⟩ := resolve_proc_low W1 h1 (by omega)
    obtain ⟨hp2, hq2⟩ := resolve_proc_low W2 (by omega) h50
    exact ⟨hp1.trans hp2.symm, hq1.trans hq2.symm⟩

/-- Claim C9 (witness): the amended step-function theorem instantiated at
widths 10 and 20. -/
theorem resolve_step_function_below_first_key_witness :
    ((20 : Nat) < 70 →
      ((resolve connections_breakpoints 10).column_count
          = (resolve connections_breakpoints 20).column_count
        ∧ (resolve connections_breakpoints 10).widths
          = (resolve connections_breakpoints 20).widths)
      ∧ ((resolve remote_addresses_breakpoints 10).column_count
          = (resolve remote_addresses_breakpoints 20).column_count
        ∧ (resolve remote_addresses_breakpoints 10).widths
          = (resolve remote_addresses_breakpoints 20).widths))
    ∧ ((20 : Nat) < 50 →
      ((resolve processes_breakpoints 10).column_count
          = (resolve processes_breakpoints 20).column_count
        ∧ (resolve processes_breakpoints 10).widths
          = (resolve processes_breakpoints 20).widths)) :=
  resolve_step_function_below_first_key 10 20 (by decide) (by decide)

/-! ## Claim about the column-reduction projection in render -/

/-- Claim C10 (confirmed): whenever the active column count is Two, `render`
projects exactly the first and third of the three logical columns — the
header becomes `[name 0, name 2]` and every stored row `[r0, r1, r2]` becomes
the truncations of `r0` and `r2` at the two resolved widths; only the middle
column (index 1) is dropped, never the first or third. -/
theorem render_two_column_projection (n0 n1 n2 r0 r1 r2 t0 t2 : List Char) (w0 w1 : Nat)
    (h0 : truncate_middle r0 w0 = some t0) (h2 : truncate_middle r2 w1 = some t2) :
    project_column_names [n0, n1, n2] ColumnCount.Two = some [n0, n2]
    ∧ project_row [w0, w1] [r0, r1, r2] ColumnCount.Two = some [t0, t2] := by
  constructor
  · rfl
  · simp [project_row, h0, h2]

/-- Claim C10 (witness): the Two-column projection at the connections table's
header names and a concrete three-cell row with the `[20, 23]` widths. -/
theorem render_two_column_projection_witness :
    project_column_names
        [String.toList "Connection", String.toList "Process", String.toList "Rate Up / Down"]
        ColumnCount.Two
      = some [String.toList "Connection", String.toList "Rate Up / Down"]
    ∧ project_row [20, 23]
        [String.toList "tcp :443", String.toList "firefox", String.toList "1Bps / 2Bps"]
        ColumnCount.Two
      = some [String.toList "tcp :443", String.toList "1Bps / 2Bps"] :=
  render_two_column_projection _ _ _ _ _ _ _ _ _ _ (by decide) (by decide)
